import Mathlib

/-!
Shallow embedding of the module bilibili_api/show.py of the repository.

The module is an HTTP-client wrapper: every operation builds a request,
performs at most a few network calls through an opaque transport, and
reshapes the JSON answer into typed records.  The embedding makes the
network explicit: an `Env` is an oracle giving the transport's answer for
each endpoint (together with the clock and the random draws the module
consumes), and every operation returns, besides its result, the ordered
list of network calls it attempted (the trace).  Fallible behaviour is an
`Except Err` value; Python exceptions (AuthenticationRequiredError,
network errors, TypeError) are constructors of `Err`.
-/

set_option maxRecDepth 4096

namespace BiliShow

/-- Errors the module can surface.  `authenticationRequired` models
bilibili_api's CredentialNoSessdataException raised by
raise_for_no_sessdata; `transport` and `remoteService` model failures
raised by the opaque HTTP collaborator; `typeError` models Python's
TypeError (raised, e.g., when a list is indexed with a string key). -/
inductive Err where
  | authenticationRequired
  | transport
  | remoteService (code : Int)
  | typeError
  deriving DecidableEq, Repr

/-- Modelled from the spec: the credential store holds session-token
material ("SESSDATA"); the only part of it this module consumes is the
fail-fast check below.  The Credential class itself lives in
bilibili_api/utils/network.py, which is not part of the given sources. -/
structure Credential where
  sessdata : Option String
  deriving DecidableEq, Repr

/-- Modelled from the spec: raise_for_no_sessdata fails fast with an
authentication error when the credential lacks session-token material,
and is a pure check otherwise (it performs no network call and does not
change the credential). -/
def Credential.raise_for_no_sessdata (c : Credential) : Except Err Unit :=
  match c.sessdata with
  | some _ => .ok ()
  | none => .error .authenticationRequired

/-- Ticket dataclass of show.py (lines 19-39). -/
structure Ticket where
  id : Int
  price : Int
  desc : String
  sale_start : String
  sale_end : String
  deriving DecidableEq, Repr

/-- Session dataclass of show.py (lines 42-59). -/
structure Session where
  id : Int
  start_time : Int
  formatted_time : String
  ticket_list : List Ticket
  deriving DecidableEq, Repr

/-- BuyerInfo dataclass of show.py (lines 62-112).  The Python field
is_default is annotated int, the last two fields default to True. -/
structure BuyerInfo where
  id : Int
  uid : Int
  account_channel : String
  personal_id : String
  name : String
  id_card_front : String
  id_card_back : String
  is_default : Int
  tel : String
  error_code : String
  id_type : Int
  verify_status : Int
  accountId : Int
  isBuyerInfoVerified : Bool := true
  isBuyerValid : Bool := true
  deriving DecidableEq, Repr

/-- One element of the ticket_list array of a screen in the project-info
JSON; the fields are exactly those show.py reads from it. -/
structure TicketJson where
  id : Int
  price : Int
  desc : String
  sale_start : String
  sale_end : String
  deriving DecidableEq, Repr

/-- One element of the screen_list array of the project-info JSON; the
fields are exactly those show.py reads from it. -/
structure ScreenJson where
  id : Int
  start_time : Int
  name : String
  ticket_list : List TicketJson
  deriving DecidableEq, Repr

/-- One entry of the details array of a performance-desc element. -/
structure Detail where
  content : String
  deriving DecidableEq, Repr

/-- One element of performance_desc.list of the project-info JSON. -/
structure DescElement where
  module : String
  details : List Detail
  deriving DecidableEq, Repr

/-- The performance_desc object of the project-info JSON. -/
structure PerformanceDesc where
  list : List DescElement
  deriving DecidableEq, Repr

/-- The parts of the project-info JSON answer that show.py reads. -/
structure ProjectInfo where
  screen_list : List ScreenJson
  performance_desc : PerformanceDesc
  deriving DecidableEq, Repr

/-- One element of the list field of the identity-service answer; the
field names mirror the keyword expansion BuyerInfo(**v) expects. -/
structure BuyerInfoJson where
  id : Int
  uid : Int
  account_channel : String
  personal_id : String
  name : String
  id_card_front : String
  id_card_back : String
  is_default : Int
  tel : String
  error_code : String
  id_type : Int
  verify_status : Int
  accountId : Int
  isBuyerInfoVerified : Bool
  isBuyerValid : Bool
  deriving DecidableEq, Repr

/-- The identity-service answer: a JSON object with a list field. -/
structure BuyerListResponse where
  list : List BuyerInfoJson
  deriving DecidableEq, Repr

/-- The token-endpoint answer: show.py reads only its token field. -/
structure TokenResponse where
  token : String
  deriving DecidableEq, Repr

/-- The raw order-endpoint answer, returned to the caller unparsed. -/
structure OrderResponse where
  body : String
  deriving DecidableEq, Repr

/-- Values a payload dict can hold: show.py puts ints and strings in it. -/
inductive PValue where
  | int (n : Int)
  | str (s : String)
  deriving DecidableEq, Repr

/-- A payload dict: an insertion-ordered association list with string
keys, as a Python dict built by literals and update with fresh keys. -/
abbrev Payload := List (String × PValue)

/-- Lookup in a payload, first binding wins (Python dict keys are unique
here because every key is inserted at most once). -/
def pget : Payload → String → Option PValue
  | [], _ => none
  | (k, v) :: rest, key => if k = key then some v else pget rest key

/-- Network calls the module can attempt, with the request data that
varies per call; the trace of an operation is the list of these. -/
inductive Call where
  | projectInfo (id : Int)
  | buyerInfo
  | token (count : String) (order_type : Int) (project_id : Int)
      (screen_id : Int) (sku_id : Int)
  | order (project_id : Int) (payload : Payload)
  deriving DecidableEq, Repr

/-- The endpoint a call goes to, forgetting the request data. -/
inductive CallTag where
  | projectInfo
  | buyerInfo
  | token
  | order
  deriving DecidableEq, Repr

/-- Tag of a call. -/
def Call.tag : Call → CallTag
  | .projectInfo _ => .projectInfo
  | .buyerInfo => .buyerInfo
  | .token _ _ _ _ _ => .token
  | .order _ _ => .order

/-- True exactly on order-submission calls. -/
def Call.isOrderCall : Call → Bool
  | .order _ _ => true
  | _ => false

/-- The oracle for everything outside the module: the transport's answer
per endpoint, the clock (time.time()*1000 read when the order header is
built, and again inside generate_clickPosition), the three random draws
generate_clickPosition consumes, and the opaque device id. -/
structure Env where
  projectInfo : Int → Except Err ProjectInfo
  buyerList : Except Err BuyerListResponse
  token : Except Err TokenResponse
  order : Except Err OrderResponse
  timeMs : Nat
  clickTimeMs : Nat
  r1 : Nat
  r2 : Nat
  r3 : Nat
  deviceId : String

/-- OrderTicket dataclass of show.py (lines 205-226). -/
structure OrderTicket where
  credential : Credential
  target_buyer : BuyerInfo
  project_id : Int
  session : Session
  ticket : Ticket
  deriving DecidableEq, Repr

/-- Result of an OrderTicket method: the value or error, the trace of
network calls attempted, and the state of the OrderTicket afterwards. -/
structure MRes (α : Type) where
  result : Except Err α
  calls : List Call
  post : OrderTicket

/-- True when the first character list occurs at the head of the second. -/
def seqMatchesHere : List Char → List Char → Bool
  | [], _ => true
  | _ :: _, [] => false
  | p :: ps, c :: cs => p == c && seqMatchesHere ps cs

/-- True when the first character list occurs somewhere in the second. -/
def seqOccursIn (pat : List Char) : List Char → Bool
  | [] => seqMatchesHere pat []
  | c :: cs => seqMatchesHere pat (c :: cs) || seqOccursIn pat cs

/-- Substring containment on strings, modelling Python's in operator. -/
def strContainsSub (s pat : String) : Bool :=
  seqOccursIn pat.toList s.toList

/-- Modelled from the spec: random.randint(a, b) of the Python standard
library returns a uniformly drawn integer of the closed range from a to
b; the draw is made explicit as a natural number r folded into the
range. -/
def randint (a b r : Nat) : Nat :=
  a + r % (b + 1 - a)

/-- Point and times the fabricated click event carries. -/
structure ClickPosition where
  x : Nat
  y : Nat
  origin : Nat
  now : Nat
  deriving DecidableEq, Repr

/-- generate_clickPosition of show.py (lines 188-202): x drawn from
1320..1330, y from 880..890, origin the current time in milliseconds,
now the origin plus a draw from 5000..10000 ms. -/
def generate_clickPosition (timeMs r1 r2 r3 : Nat) : ClickPosition :=
  { x := randint 1320 1330 r1
    y := randint 880 890 r2
    origin := timeMs
    now := timeMs + randint 5000 10000 r3 }

/-- Serialization of a click position, as json.dumps of the dict show.py
builds (insertion order x, y, origin, now). -/
def dumpsClickPosition (cp : ClickPosition) : String :=
  "\x7b\"x\": " ++ toString cp.x ++ ", \"y\": " ++ toString cp.y ++
    ", \"origin\": " ++ toString cp.origin ++ ", \"now\": " ++
    toString cp.now ++ "\x7d"

/-- Serialization of a JSON string value (the buyer fields carry no
characters needing escapes in the scenarios modelled here). -/
def jsonStr (s : String) : String :=
  "\"" ++ s ++ "\""

/-- Serialization of a JSON boolean value. -/
def jsonBool (b : Bool) : String :=
  if b then "true" else "false"

/-- Serialization of a BuyerInfo record, as json.dumps of its __dict__
(dataclass field order). -/
def dumpsBuyerInfo (b : BuyerInfo) : String :=
  "\x7b\"id\": " ++ toString b.id ++ ", \"uid\": " ++ toString b.uid ++
    ", \"account_channel\": " ++ jsonStr b.account_channel ++
    ", \"personal_id\": " ++ jsonStr b.personal_id ++
    ", \"name\": " ++ jsonStr b.name ++
    ", \"id_card_front\": " ++ jsonStr b.id_card_front ++
    ", \"id_card_back\": " ++ jsonStr b.id_card_back ++
    ", \"is_default\": " ++ toString b.is_default ++
    ", \"tel\": " ++ jsonStr b.tel ++
    ", \"error_code\": " ++ jsonStr b.error_code ++
    ", \"id_type\": " ++ toString b.id_type ++
    ", \"verify_status\": " ++ toString b.verify_status ++
    ", \"accountId\": " ++ toString b.accountId ++
    ", \"isBuyerInfoVerified\": " ++ jsonBool b.isBuyerInfoVerified ++
    ", \"isBuyerValid\": " ++ jsonBool b.isBuyerValid ++ "\x7d"

/-- Serialization of the single-element list holding the buyer record,
as json.dumps([target_buyer.__dict__]) in show.py line 257. -/
def dumpsBuyerInfoList (b : BuyerInfo) : String :=
  "[" ++ dumpsBuyerInfo b ++ "]"

/-- get_project_info of show.py (lines 115-126): one call to the
project-info endpoint, whose answer is returned as is. -/
def get_project_info (env : Env) (project_id : Int) :
    Except Err ProjectInfo × List Call :=
  (env.projectInfo project_id, [Call.projectInfo project_id])

/-- Construction of a Ticket from one ticket_list entry, as the literal
Ticket(id=..., price=..., desc=..., sale_start=..., sale_end=...) of
show.py lines 147-153. -/
def ticketOfJson (t : TicketJson) : Ticket :=
  { id := t.id
    price := t.price
    desc := t.desc
    sale_start := t.sale_start
    sale_end := t.sale_end }

/-- Construction of a Session from one screen_list entry, as the literal
Session(id=..., start_time=..., formatted_time=name) of show.py lines
142-144 followed by the append loop over ticket_list. -/
def sessionOfScreen (v : ScreenJson) : Session :=
  { id := v.id
    start_time := v.start_time
    formatted_time := v.name
    ticket_list := v.ticket_list.map ticketOfJson }

/-- get_available_sessions of show.py (lines 129-156): fetch the project
info and flatten screen_list into Session records in order. -/
def get_available_sessions (env : Env) (project_id : Int) :
    Except Err (List Session) × List Call :=
  match get_project_info env project_id with
  | (.error e, t) => (.error e, t)
  | (.ok info, t) => (.ok (info.screen_list.map sessionOfScreen), t)

/-- get_all_buyer_info of show.py (lines 159-171): check the credential
first, then one call to the identity endpoint. -/
def get_all_buyer_info (env : Env) (c : Credential) :
    Except Err BuyerListResponse × List Call :=
  match c.raise_for_no_sessdata with
  | .error e => (.error e, [])
  | .ok _ => (env.buyerList, [Call.buyerInfo])

/-- Construction of a BuyerInfo from one element of the answer's list
field, as the keyword expansion BuyerInfo(**v) of show.py line 185. -/
def buyerInfoOfJson (v : BuyerInfoJson) : BuyerInfo :=
  { id := v.id
    uid := v.uid
    account_channel := v.account_channel
    personal_id := v.personal_id
    name := v.name
    id_card_front := v.id_card_front
    id_card_back := v.id_card_back
    is_default := v.is_default
    tel := v.tel
    error_code := v.error_code
    id_type := v.id_type
    verify_status := v.verify_status
    accountId := v.accountId
    isBuyerInfoVerified := v.isBuyerInfoVerified
    isBuyerValid := v.isBuyerValid }

/-- get_all_buyer_info_obj of show.py (lines 174-185): the raw identity
answer mapped elementwise into BuyerInfo records. -/
def get_all_buyer_info_obj (env : Env) (c : Credential) :
    Except Err (List BuyerInfo) × List Call :=
  match get_all_buyer_info env c with
  | (.error e, t) => (.error e, t)
  | (.ok res, t) => (.ok (res.list.map buyerInfoOfJson), t)

/-- get_token of show.py (lines 267-285): check the credential, then one
call to the token endpoint with data count="1", order_type=1,
project_id, screen_id, sku_id.  No field of self is assigned. -/
def OrderTicket.get_token (ot : OrderTicket) (env : Env) :
    MRes TokenResponse :=
  match ot.credential.raise_for_no_sessdata with
  | .error e => ⟨.error e, [], ot⟩
  | .ok _ =>
    ⟨env.token,
      [Call.token "1" 1 ot.project_id ot.session.id ot.ticket.id], ot⟩

/-- Trigger test of show.py line 256: the content of a details entry
contains the one-person-one-ID or the one-order-one-ID marker. -/
def detailTriggers (d : Detail) : Bool :=
  strContainsSub d.content "一人一证" || strContainsSub d.content "一单一证"

/-- The first ten header entries _get_create_order_payload builds
(show.py lines 236-247), in dict insertion order. -/
def orderHeader (ot : OrderTicket) (env : Env) (tok : TokenResponse) :
    Payload :=
  [("count", .int 1),
   ("order_type", .int 1),
   ("pay_money", .int ot.ticket.price),
   ("project_id", .int ot.project_id),
   ("screen_id", .int ot.session.id),
   ("sku_id", .int ot.ticket.id),
   ("timestamp", .int env.timeMs),
   ("token", .str tok.token),
   ("deviceId", .str env.deviceId),
   ("clickPosition",
     .str (dumpsClickPosition
       (generate_clickPosition env.clickTimeMs env.r1 env.r2 env.r3)))]

/-- _get_create_order_payload of show.py (lines 228-265): await
get_token, build the header, re-fetch the project info, pick the first
performance_desc.list element whose module is base_info (when none
matches, the Python for-loop leaves info bound to the whole list and
info["details"] raises TypeError), then extend the header with
buyer_info when some details entry triggers, else with buyer and tel. -/
def OrderTicket._get_create_order_payload (ot : OrderTicket) (env : Env) :
    MRes Payload :=
  let r := ot.get_token env
  match r.result with
  | .error e => ⟨.error e, r.calls, r.post⟩
  | .ok tok =>
    let self := r.post
    let header := orderHeader self env tok
    match get_project_info env self.project_id with
    | (.error e, t2) => ⟨.error e, r.calls ++ t2, self⟩
    | (.ok info, t2) =>
      match info.performance_desc.list.find?
          (fun el => el.module == "base_info") with
      | none => ⟨.error .typeError, r.calls ++ t2, self⟩
      | some base =>
        if base.details.any detailTriggers then
          ⟨.ok (header ++
              [("buyer_info", .str (dumpsBuyerInfoList self.target_buyer))]),
            r.calls ++ t2, self⟩
        else
          ⟨.ok (header ++
              [("buyer", .str self.target_buyer.name),
               ("tel", .str self.target_buyer.tel)]),
            r.calls ++ t2, self⟩

/-- create_order of show.py (lines 287-301): await the payload builder,
then one call to the order endpoint with the payload as body. -/
def OrderTicket.create_order (ot : OrderTicket) (env : Env) :
    MRes OrderResponse :=
  let r := ot._get_create_order_payload env
  match r.result with
  | .error e => ⟨.error e, r.calls, r.post⟩
  | .ok payload =>
    ⟨env.order, r.calls ++ [Call.order r.post.project_id payload], r.post⟩

/-! Concrete fixtures used to instantiate the theorems below. -/

/-- A credential holding session-token material. -/
def credW : Credential :=
  ⟨some "sessdata-value"⟩

/-- A credential lacking session-token material. -/
def credNone : Credential :=
  ⟨none⟩

/-- A concrete buyer record. -/
def buyerW : BuyerInfo :=
  { id := 1
    uid := 9
    account_channel := ""
    personal_id := "110101199001011234"
    name := "Zhang San"
    id_card_front := ""
    id_card_back := ""
    is_default := 1
    tel := "13800000000"
    error_code := ""
    id_type := 0
    verify_status := 1
    accountId := 9 }

/-- The same record as an identity-service answer element. -/
def buyerJsonW : BuyerInfoJson :=
  { id := 1
    uid := 9
    account_channel := ""
    personal_id := "110101199001011234"
    name := "Zhang San"
    id_card_front := ""
    id_card_back := ""
    is_default := 1
    tel := "13800000000"
    error_code := ""
    id_type := 0
    verify_status := 1
    accountId := 9
    isBuyerInfoVerified := true
    isBuyerValid := true }

/-- A concrete ticket. -/
def ticketW : Ticket :=
  ⟨10, 100, "VIP", "t0", "t1"⟩

/-- A concrete session holding that ticket. -/
def sessionW : Session :=
  ⟨1, 1700000000, "2024-01-01 Monday", [ticketW]⟩

/-- The screen_list entry of the spec's catalog scenario. -/
def screenJsonW : ScreenJson :=
  { id := 1
    start_time := 1700000000
    name := "2024-01-01 Monday"
    ticket_list := [⟨10, 100, "VIP", "t0", "t1"⟩] }

/-- Project info whose base_info details trigger the identity branch. -/
def infoTrig : ProjectInfo :=
  { screen_list := [screenJsonW]
    performance_desc :=
      ⟨[⟨"other", []⟩, ⟨"base_info", [⟨"本场演出实行一人一证政策"⟩]⟩]⟩ }

/-- Project info whose base_info details trigger neither marker. -/
def infoPlain : ProjectInfo :=
  { screen_list := [screenJsonW]
    performance_desc := ⟨[⟨"base_info", [⟨"常规购票说明"⟩]⟩]⟩ }

/-- Project info whose performance_desc.list has no base_info element. -/
def infoNoBase : ProjectInfo :=
  { screen_list := [screenJsonW]
    performance_desc := ⟨[⟨"other", [⟨"一人一证"⟩]⟩]⟩ }

/-- Project info carrying a ticket with a negative upstream price. -/
def infoNeg : ProjectInfo :=
  { screen_list :=
      [{ id := 2
         start_time := 0
         name := "s"
         ticket_list := [⟨11, -1, "d", "a", "b"⟩] }]
    performance_desc := ⟨[]⟩ }

/-- An environment where every endpoint answers successfully, serving
the given project info. -/
def envOk (info : ProjectInfo) : Env :=
  { projectInfo := fun _ => .ok info
    buyerList := .ok ⟨[buyerJsonW]⟩
    token := .ok ⟨"tok123"⟩
    order := .ok ⟨"order-accepted"⟩
    timeMs := 1700000000000
    clickTimeMs := 1700000000002
    r1 := 3
    r2 := 14
    r3 := 5003
    deviceId := "device-uuid" }

/-- An environment whose token endpoint fails at the transport level. -/
def envTokFail (info : ProjectInfo) : Env :=
  { envOk info with token := .error .transport }

/-- The order ticket of the scenarios: valid credential, the concrete
buyer, project 500, the concrete session and ticket. -/
def otW : OrderTicket :=
  ⟨credW, buyerW, 500, sessionW, ticketW⟩

/-- The same order ticket with a credential lacking session data. -/
def otNoSess : OrderTicket :=
  ⟨credNone, buyerW, 500, sessionW, ticketW⟩

/-- Price of the first ticket of the first session of a result, when
such a ticket exists. -/
def headTicketPrice (r : Except Err (List Session)) : Option Int :=
  match r with
  | .ok (s :: _) =>
    match s.ticket_list with
    | t :: _ => some t.price
    | [] => none
  | _ => none

/-- The payload produced in the triggering scenario, used to instantiate
the payload-shape theorem at a concrete input. -/
def pW : Payload :=
  match (otW._get_create_order_payload (envOk infoTrig)).result with
  | .ok p => p
  | .error _ => []

/-- The base_info element of infoTrig. -/
def baseW : DescElement :=
  ⟨"base_info", [⟨"本场演出实行一人一证政策"⟩]⟩

/-- The ticket_list entry of the concrete screen. -/
def ticketJsonW : TicketJson :=
  ⟨10, 100, "VIP", "t0", "t1"⟩

/-! Helper lemmas shared by the claim theorems. -/

/-- get_token never rebinds any field of self. -/
theorem gtokPost (ot : OrderTicket) (env : Env) :
    (ot.get_token env).post = ot := by
  unfold OrderTicket.get_token
  cases ot.credential.raise_for_no_sessdata <;> rfl

/-- Reduction of get_token when the credential holds session data. -/
theorem gtokOk (ot : OrderTicket) (env : Env) (s : String)
    (hc : ot.credential.sessdata = some s) :
    ot.get_token env =
      ⟨env.token,
        [Call.token "1" 1 ot.project_id ot.session.id ot.ticket.id], ot⟩ := by
  unfold OrderTicket.get_token Credential.raise_for_no_sessdata
  simp only [hc]

/-- Reduction of get_token when the credential lacks session data. -/
theorem gtokNoSess (ot : OrderTicket) (env : Env)
    (hc : ot.credential.sessdata = none) :
    ot.get_token env = ⟨.error .authenticationRequired, [], ot⟩ := by
  unfold OrderTicket.get_token Credential.raise_for_no_sessdata
  simp only [hc]

/-- The trace of get_token holds no order-submission call. -/
theorem gtokCallsNoOrder (ot : OrderTicket) (env : Env) :
    (ot.get_token env).calls.any Call.isOrderCall = false := by
  unfold OrderTicket.get_token
  cases ot.credential.raise_for_no_sessdata <;> simp [Call.isOrderCall]

/-- _get_create_order_payload never rebinds any field of self. -/
theorem payloadPost (ot : OrderTicket) (env : Env) :
    (ot._get_create_order_payload env).post = ot := by
  unfold OrderTicket._get_create_order_payload
  cases hres : (ot.get_token env).result with
  | error e => simp only [hres, gtokPost]
  | ok tok =>
    simp only [hres, get_project_info, gtokPost]
    cases hpi : env.projectInfo ot.project_id with
    | error e => simp only [hpi]
    | ok info =>
      simp only [hpi]
      cases hf : info.performance_desc.list.find?
          (fun el => el.module == "base_info") with
      | none => simp only [hf]
      | some base =>
        simp only [hf]
        by_cases ht : base.details.any detailTriggers <;>
          simp only [ht, Bool.false_eq_true, if_true, if_false, reduceIte]

/-- Reduction of _get_create_order_payload when the token step fails. -/
theorem payloadErrTok (ot : OrderTicket) (env : Env) (e : Err)
    (h : (ot.get_token env).result = .error e) :
    ot._get_create_order_payload env =
      ⟨.error e, (ot.get_token env).calls, ot⟩ := by
  unfold OrderTicket._get_create_order_payload
  simp only [h, gtokPost]

/-- Reduction of _get_create_order_payload on the success path: token
acquired, project info fetched, base_info element found. -/
theorem payloadOk (ot : OrderTicket) (env : Env) (tok : TokenResponse)
    (info : ProjectInfo) (base : DescElement)
    (hres : (ot.get_token env).result = .ok tok)
    (hpi : env.projectInfo ot.project_id = .ok info)
    (hf : info.performance_desc.list.find?
      (fun el => el.module == "base_info") = some base) :
    ot._get_create_order_payload env =
      ⟨.ok (orderHeader ot env tok ++
          (if base.details.any detailTriggers then
            [("buyer_info", .str (dumpsBuyerInfoList ot.target_buyer))]
          else
            [("buyer", .str ot.target_buyer.name),
             ("tel", .str ot.target_buyer.tel)])),
        (ot.get_token env).calls ++ [Call.projectInfo ot.project_id], ot⟩ := by
  unfold OrderTicket._get_create_order_payload
  simp only [hres, get_project_info, gtokPost, hpi, hf]
  by_cases ht : base.details.any detailTriggers <;> simp [ht]

/-- create_order never rebinds any field of self. -/
theorem orderPost (ot : OrderTicket) (env : Env) :
    (ot.create_order env).post = ot := by
  unfold OrderTicket.create_order
  cases hres : (ot._get_create_order_payload env).result with
  | error e => simp only [hres, payloadPost]
  | ok p => simp only [hres, payloadPost]

/-- Reduction of create_order when the payload builder fails. -/
theorem orderErrPayload (ot : OrderTicket) (env : Env) (e : Err)
    (h : (ot._get_create_order_payload env).result = .error e) :
    ot.create_order env =
      ⟨.error e, (ot._get_create_order_payload env).calls, ot⟩ := by
  unfold OrderTicket.create_order
  simp only [h, payloadPost]

/-- Reduction of create_order when the payload builder succeeds. -/
theorem orderOkPayload (ot : OrderTicket) (env : Env) (p : Payload)
    (h : (ot._get_create_order_payload env).result = .ok p) :
    ot.create_order env =
      ⟨env.order,
        (ot._get_create_order_payload env).calls ++
          [Call.order ot.project_id p], ot⟩ := by
  unfold OrderTicket.create_order
  simp only [h, payloadPost]

/-- Lookup of the branch-dependent keys skips the ten header entries,
whose keys are all different from buyer_info, buyer and tel. -/
theorem pget_header_skip (ot : OrderTicket) (env : Env)
    (tok : TokenResponse) (tail : Payload) (key : String)
    (hk : key = "buyer_info" ∨ key = "buyer" ∨ key = "tel") :
    pget (orderHeader ot env tok ++ tail) key = pget tail key := by
  rcases hk with hk | hk | hk <;> subst hk <;>
    simp [orderHeader, pget]

/-! Claim theorems. -/

/-- C1: whenever the project-info answer's performance_desc.list has a
base_info element and _get_create_order_payload returns a payload, the
payload carries the buyer_info key (holding the serialized single-element
list with the full buyer record) exactly when some details entry of that
element contains one of the trigger substrings, and otherwise carries the
buyer and tel keys instead; the two shapes are mutually exclusive and
never both present. -/
theorem C1_payload_shape (ot : OrderTicket) (env : Env)
    (info : ProjectInfo) (base : DescElement) (p : Payload)
    (hinfo : env.projectInfo ot.project_id = .ok info)
    (hbase : info.performance_desc.list.find?
      (fun el => el.module == "base_info") = some base)
    (hp : (ot._get_create_order_payload env).result = .ok p) :
    (base.details.any detailTriggers = true →
      pget p "buyer_info" = some (.str (dumpsBuyerInfoList ot.target_buyer)) ∧
      pget p "buyer" = none ∧ pget p "tel" = none) ∧
    (base.details.any detailTriggers = false →
      pget p "buyer" = some (.str ot.target_buyer.name) ∧
      pget p "tel" = some (.str ot.target_buyer.tel) ∧
      pget p "buyer_info" = none) ∧
    ¬(pget p "buyer_info" ≠ none ∧ pget p "buyer" ≠ none) := by
  cases hres : (ot.get_token env).result with
  | error e =>
    rw [payloadErrTok ot env e hres] at hp
    simp at hp
  | ok tok =>
    rw [payloadOk ot env tok info base hres hinfo hbase] at hp
    simp only [Except.ok.injEq] at hp
    subst hp
    by_cases ht : base.details.any detailTriggers
    · rw [if_pos ht]
      refine ⟨fun _ => ?_, fun hf2 => ?_, ?_⟩
      · exact ⟨by simp [pget_header_skip, pget],
          by simp [pget_header_skip, pget], by simp [pget_header_skip, pget]⟩
      · rw [ht] at hf2; cases hf2
      · intro hcon
        exact hcon.2 (by simp [pget_header_skip, pget])
    · rw [if_neg ht]
      refine ⟨fun ht2 => ?_, fun _ => ?_, ?_⟩
      · rw [ht2] at ht; cases ht rfl
      · exact ⟨by simp [pget_header_skip, pget],
          by simp [pget_header_skip, pget], by simp [pget_header_skip, pget]⟩
      · intro hcon
        exact hcon.1 (by simp [pget_header_skip, pget])

/-- C1 witness: in the triggering scenario the payload holds buyer_info
and neither buyer nor tel. -/
theorem C1_payload_shape_witness :
    ((envOk infoTrig).projectInfo otW.project_id = .ok infoTrig) ∧
    (infoTrig.performance_desc.list.find?
      (fun el => el.module == "base_info") = some baseW) ∧
    ((otW._get_create_order_payload (envOk infoTrig)).result = .ok pW) ∧
    ((baseW.details.any detailTriggers = true →
      pget pW "buyer_info" =
        some (.str (dumpsBuyerInfoList otW.target_buyer)) ∧
      pget pW "buyer" = none ∧ pget pW "tel" = none) ∧
    (baseW.details.any detailTriggers = false →
      pget pW "buyer" = some (.str otW.target_buyer.name) ∧
      pget pW "tel" = some (.str otW.target_buyer.tel) ∧
      pget pW "buyer_info" = none) ∧
    ¬(pget pW "buyer_info" ≠ none ∧ pget pW "buyer" ≠ none)) :=
  ⟨rfl, rfl, rfl,
    C1_payload_shape otW (envOk infoTrig) infoTrig baseW pW rfl rfl rfl⟩

/-- C2 counterexample: in a fully successful concrete run, create_order
attempts three network calls (token, project info, order submission),
not the two the claim states. -/
theorem C2_two_trips_counterexample :
    (otW.create_order (envOk infoTrig)).calls.map Call.tag =
      [CallTag.token, CallTag.projectInfo, CallTag.order] ∧
    (otW.create_order (envOk infoTrig)).calls.length = 3 ∧
    (otW.create_order (envOk infoTrig)).calls.length ≠ 2 := by
  refine ⟨by decide, by decide, by decide⟩

/-- C2 amended: on the success path create_order performs exactly three
network round trips, sequentially the token request, the project-info
re-fetch and the order submission; no operation of the module other than
create_order and _get_create_order_payload (which performs the first two
of those trips) performs more than one round trip. -/
theorem C2_round_trips (ot : OrderTicket) (env : Env) (s : String)
    (tok : TokenResponse) (info : ProjectInfo) (base : DescElement)
    (pid : Int) (c : Credential)
    (hc : ot.credential.sessdata = some s)
    (htok : env.token = .ok tok)
    (hinfo : env.projectInfo ot.project_id = .ok info)
    (hbase : info.performance_desc.list.find?
      (fun el => el.module == "base_info") = some base) :
    (ot.create_order env).calls.map Call.tag =
      [CallTag.token, CallTag.projectInfo, CallTag.order] ∧
    (ot._get_create_order_payload env).calls.map Call.tag =
      [CallTag.token, CallTag.projectInfo] ∧
    (get_project_info env pid).2.length = 1 ∧
    (get_available_sessions env pid).2.length = 1 ∧
    (get_all_buyer_info env c).2.length ≤ 1 ∧
    (get_all_buyer_info_obj env c).2.length ≤ 1 ∧
    (ot.get_token env).calls.length ≤ 1 := by
  have hgt := gtokOk ot env s hc
  have hres : (ot.get_token env).result = .ok tok := by rw [hgt]; exact htok
  have hpl := payloadOk ot env tok info base hres hinfo hbase
  have hplcalls : (ot._get_create_order_payload env).calls =
      (ot.get_token env).calls ++ [Call.projectInfo ot.project_id] := by
    rw [hpl]
  have hplres : ∃ p, (ot._get_create_order_payload env).result = .ok p := by
    rw [hpl]
    exact ⟨_, rfl⟩
  obtain ⟨p, hpres⟩ := hplres
  have hco := orderOkPayload ot env p hpres
  refine ⟨?_, ?_, rfl, ?_, ?_, ?_, ?_⟩
  · rw [hco]
    simp [hplcalls, hgt, Call.tag]
  · rw [hplcalls, hgt]
    simp [Call.tag]
  · unfold get_available_sessions get_project_info
    cases env.projectInfo pid <;> simp
  · unfold get_all_buyer_info
    cases c.raise_for_no_sessdata <;> simp
  · unfold get_all_buyer_info_obj get_all_buyer_info
    cases c.raise_for_no_sessdata <;> cases env.buyerList <;> simp
  · rw [hgt]
    simp

/-- C2 witness: the amended statement instantiated at the concrete
successful environment. -/
theorem C2_round_trips_witness :
    (otW.credential.sessdata = some "sessdata-value") ∧
    ((envOk infoTrig).token = .ok ⟨"tok123"⟩) ∧
    ((envOk infoTrig).projectInfo otW.project_id = .ok infoTrig) ∧
    (infoTrig.performance_desc.list.find?
      (fun el => el.module == "base_info") = some baseW) ∧
    ((otW.create_order (envOk infoTrig)).calls.map Call.tag =
      [CallTag.token, CallTag.projectInfo, CallTag.order] ∧
    (otW._get_create_order_payload (envOk infoTrig)).calls.map Call.tag =
      [CallTag.token, CallTag.projectInfo] ∧
    (get_project_info (envOk infoTrig) 500).2.length = 1 ∧
    (get_available_sessions (envOk infoTrig) 500).2.length = 1 ∧
    (get_all_buyer_info (envOk infoTrig) credW).2.length ≤ 1 ∧
    (get_all_buyer_info_obj (envOk infoTrig) credW).2.length ≤ 1 ∧
    (otW.get_token (envOk infoTrig)).calls.length ≤ 1) :=
  ⟨rfl, rfl, rfl, rfl,
    C2_round_trips otW (envOk infoTrig) "sessdata-value" ⟨"tok123"⟩
      infoTrig baseW 500 credW rfl rfl rfl rfl⟩

/-- C3: for every project-info answer, get_available_sessions returns
exactly the screen_list mapped in order into Session records, with every
Session and Ticket field copied from the corresponding answer fields and
every ticket list mapped in order, nothing dropped, duplicated,
reordered or filtered. -/
theorem C3_sessions_structural (env : Env) (pid : Int) (info : ProjectInfo)
    (v : ScreenJson) (t : TicketJson) (ss : List Session)
    (h : env.projectInfo pid = .ok info)
    (hss : (get_available_sessions env pid).1 = .ok ss) :
    ss = info.screen_list.map sessionOfScreen ∧
    ss.length = info.screen_list.length ∧
    sessionOfScreen v =
      { id := v.id, start_time := v.start_time, formatted_time := v.name,
        ticket_list := v.ticket_list.map ticketOfJson } ∧
    (sessionOfScreen v).ticket_list.length = v.ticket_list.length ∧
    ticketOfJson t = ⟨t.id, t.price, t.desc, t.sale_start, t.sale_end⟩ := by
  simp [get_available_sessions, get_project_info, h] at hss
  subst hss
  refine ⟨rfl, by simp, rfl, by simp [sessionOfScreen], rfl⟩

/-- C3 witness: the catalog scenario of the spec, one screen with one
ticket, mapped to one Session holding one Ticket. -/
theorem C3_sessions_structural_witness :
    ((envOk infoTrig).projectInfo 500 = .ok infoTrig) ∧
    ((get_available_sessions (envOk infoTrig) 500).1 = .ok [sessionW]) ∧
    ([sessionW] = infoTrig.screen_list.map sessionOfScreen ∧
    [sessionW].length = infoTrig.screen_list.length ∧
    sessionOfScreen screenJsonW =
      { id := screenJsonW.id, start_time := screenJsonW.start_time,
        formatted_time := screenJsonW.name,
        ticket_list := screenJsonW.ticket_list.map ticketOfJson } ∧
    (sessionOfScreen screenJsonW).ticket_list.length =
      screenJsonW.ticket_list.length ∧
    ticketOfJson ticketJsonW =
      ⟨ticketJsonW.id, ticketJsonW.price, ticketJsonW.desc,
        ticketJsonW.sale_start, ticketJsonW.sale_end⟩) :=
  ⟨rfl, rfl,
    C3_sessions_structural (envOk infoTrig) 500 infoTrig screenJsonW
      ticketJsonW [sessionW] rfl rfl⟩

/-- C4: with a credential lacking session-token material, every
credential-gated operation fails with the authentication error and its
trace of network calls is empty. -/
theorem C4_auth_gate (env : Env) (c : Credential) (ot : OrderTicket)
    (hc : c.sessdata = none) (hot : ot.credential.sessdata = none) :
    get_all_buyer_info env c = (.error .authenticationRequired, []) ∧
    get_all_buyer_info_obj env c = (.error .authenticationRequired, []) ∧
    ot.get_token env = ⟨.error .authenticationRequired, [], ot⟩ ∧
    ot._get_create_order_payload env =
      ⟨.error .authenticationRequired, [], ot⟩ ∧
    ot.create_order env = ⟨.error .authenticationRequired, [], ot⟩ := by
  have h1 : get_all_buyer_info env c = (.error .authenticationRequired, []) := by
    unfold get_all_buyer_info Credential.raise_for_no_sessdata
    simp only [hc]
  have h3 := gtokNoSess ot env hot
  have h4 : ot._get_create_order_payload env =
      ⟨.error .authenticationRequired, [], ot⟩ := by
    have := payloadErrTok ot env .authenticationRequired (by rw [h3])
    rw [this, h3]
  have h5 : ot.create_order env =
      ⟨.error .authenticationRequired, [], ot⟩ := by
    have := orderErrPayload ot env .authenticationRequired (by rw [h4])
    rw [this, h4]
  exact ⟨h1, by unfold get_all_buyer_info_obj; rw [h1], h3, h4, h5⟩

/-- C4 witness: the sessionless credential blocks all four operations
before any network call. -/
theorem C4_auth_gate_witness :
    (credNone.sessdata = none) ∧
    (otNoSess.credential.sessdata = none) ∧
    (get_all_buyer_info (envOk infoTrig) credNone =
      (.error .authenticationRequired, []) ∧
    get_all_buyer_info_obj (envOk infoTrig) credNone =
      (.error .authenticationRequired, []) ∧
    otNoSess.get_token (envOk infoTrig) =
      ⟨.error .authenticationRequired, [], otNoSess⟩ ∧
    otNoSess._get_create_order_payload (envOk infoTrig) =
      ⟨.error .authenticationRequired, [], otNoSess⟩ ∧
    otNoSess.create_order (envOk infoTrig) =
      ⟨.error .authenticationRequired, [], otNoSess⟩) :=
  ⟨rfl, rfl, C4_auth_gate (envOk infoTrig) credNone otNoSess rfl rfl⟩

/-- C5: whatever error get_token surfaces, create_order surfaces the
same error unchanged and its trace holds no order-submission call. -/
theorem C5_token_error_propagation (ot : OrderTicket) (env : Env) (e : Err)
    (h : (ot.get_token env).result = .error e) :
    (ot.create_order env).result = .error e ∧
    (ot.create_order env).calls.any Call.isOrderCall = false := by
  have hpl := payloadErrTok ot env e h
  have hres : (ot._get_create_order_payload env).result = .error e := by
    rw [hpl]
  rw [orderErrPayload ot env e hres]
  exact ⟨rfl, by rw [hpl]; exact gtokCallsNoOrder ot env⟩

/-- C5 witness: a transport failure of the token endpoint propagates
through create_order unchanged, with no order submission attempted. -/
theorem C5_token_error_propagation_witness :
    ((otW.get_token (envTokFail infoTrig)).result = .error .transport) ∧
    ((otW.create_order (envTokFail infoTrig)).result = .error .transport ∧
    (otW.create_order (envTokFail infoTrig)).calls.any Call.isOrderCall =
      false) :=
  ⟨rfl, C5_token_error_propagation otW (envTokFail infoTrig) .transport rfl⟩

/-- C6: for every random draw and every positive current time, the click
position satisfies 1320 ≤ x ≤ 1330, 880 ≤ y ≤ 890, 5000 ≤ now − origin
≤ 10000 and origin > 0. -/
theorem C6_click_position_bounds (timeMs r1 r2 r3 : Nat) (h : 0 < timeMs) :
    1320 ≤ (generate_clickPosition timeMs r1 r2 r3).x ∧
    (generate_clickPosition timeMs r1 r2 r3).x ≤ 1330 ∧
    880 ≤ (generate_clickPosition timeMs r1 r2 r3).y ∧
    (generate_clickPosition timeMs r1 r2 r3).y ≤ 890 ∧
    5000 ≤ (generate_clickPosition timeMs r1 r2 r3).now -
      (generate_clickPosition timeMs r1 r2 r3).origin ∧
    (generate_clickPosition timeMs r1 r2 r3).now -
      (generate_clickPosition timeMs r1 r2 r3).origin ≤ 10000 ∧
    0 < (generate_clickPosition timeMs r1 r2 r3).origin := by
  simp only [generate_clickPosition, randint]
  omega

/-- C6 witness: the bounds at time 1 and zero draws. -/
theorem C6_click_position_bounds_witness :
    0 < 1 ∧
    (1320 ≤ (generate_clickPosition 1 0 0 0).x ∧
    (generate_clickPosition 1 0 0 0).x ≤ 1330 ∧
    880 ≤ (generate_clickPosition 1 0 0 0).y ∧
    (generate_clickPosition 1 0 0 0).y ≤ 890 ∧
    5000 ≤ (generate_clickPosition 1 0 0 0).now -
      (generate_clickPosition 1 0 0 0).origin ∧
    (generate_clickPosition 1 0 0 0).now -
      (generate_clickPosition 1 0 0 0).origin ≤ 10000 ∧
    0 < (generate_clickPosition 1 0 0 0).origin) :=
  ⟨by decide, C6_click_position_bounds 1 0 0 0 (by decide)⟩

/-- C7: for every identity-service answer, get_all_buyer_info_obj
returns one BuyerInfo per element of the answer's list field, in order,
with every field copied from the corresponding element. -/
theorem C7_buyer_info_mapping (env : Env) (c : Credential) (s : String)
    (resp : BuyerListResponse) (v : BuyerInfoJson) (bs : List BuyerInfo)
    (hc : c.sessdata = some s)
    (hr : env.buyerList = .ok resp)
    (hb : (get_all_buyer_info_obj env c).1 = .ok bs) :
    bs = resp.list.map buyerInfoOfJson ∧
    bs.length = resp.list.length ∧
    buyerInfoOfJson v =
      ⟨v.id, v.uid, v.account_channel, v.personal_id, v.name,
       v.id_card_front, v.id_card_back, v.is_default, v.tel, v.error_code,
       v.id_type, v.verify_status, v.accountId, v.isBuyerInfoVerified,
       v.isBuyerValid⟩ := by
  simp [get_all_buyer_info_obj, get_all_buyer_info,
    Credential.raise_for_no_sessdata, hc, hr] at hb
  subst hb
  refine ⟨rfl, by simp, rfl⟩

/-- C7 witness: the one-element identity scenario of the spec. -/
theorem C7_buyer_info_mapping_witness :
    (credW.sessdata = some "sessdata-value") ∧
    ((envOk infoTrig).buyerList = .ok ⟨[buyerJsonW]⟩) ∧
    ((get_all_buyer_info_obj (envOk infoTrig) credW).1 = .ok [buyerW]) ∧
    ([buyerW] = [buyerJsonW].map buyerInfoOfJson ∧
    [buyerW].length = [buyerJsonW].length ∧
    buyerInfoOfJson buyerJsonW =
      ⟨buyerJsonW.id, buyerJsonW.uid, buyerJsonW.account_channel,
       buyerJsonW.personal_id, buyerJsonW.name, buyerJsonW.id_card_front,
       buyerJsonW.id_card_back, buyerJsonW.is_default, buyerJsonW.tel,
       buyerJsonW.error_code, buyerJsonW.id_type, buyerJsonW.verify_status,
       buyerJsonW.accountId, buyerJsonW.isBuyerInfoVerified,
       buyerJsonW.isBuyerValid⟩) :=
  ⟨rfl, rfl, rfl,
    C7_buyer_info_mapping (envOk infoTrig) credW "sessdata-value"
      ⟨[buyerJsonW]⟩ buyerJsonW [buyerW] rfl rfl rfl⟩

/-- C8 counterexample: prices are copied verbatim from the answer, so an
upstream price of -1 yields a produced Ticket with negative price. -/
theorem C8_price_counterexample :
    headTicketPrice (get_available_sessions (envOk infoNeg) 7).1 =
      some (-1) ∧ (-1 : Int) < 0 :=
  ⟨rfl, by decide⟩

/-- C8 amended: every Ticket produced by get_available_sessions carries
the corresponding upstream price verbatim, hence is non-negative
whenever every price in the upstream catalog answer is non-negative. -/
theorem C8_price_nonneg_of_upstream (env : Env) (pid : Int)
    (info : ProjectInfo) (ss : List Session) (s : Session) (tk : Ticket)
    (h : env.projectInfo pid = .ok info)
    (hpos : ∀ v ∈ info.screen_list, ∀ t ∈ v.ticket_list, 0 ≤ t.price)
    (hss : (get_available_sessions env pid).1 = .ok ss)
    (hs : s ∈ ss) (htk : tk ∈ s.ticket_list) :
    0 ≤ tk.price := by
  simp [get_available_sessions, get_project_info, h] at hss
  subst hss
  rcases List.mem_map.mp hs with ⟨v, hv, rfl⟩
  simp only [sessionOfScreen] at htk
  rcases List.mem_map.mp htk with ⟨t, htl, rfl⟩
  simpa [ticketOfJson] using hpos v hv t htl

/-- C8 witness: the amended statement at the concrete catalog whose only
price is 100. -/
theorem C8_price_nonneg_of_upstream_witness :
    ((envOk infoTrig).projectInfo 500 = .ok infoTrig) ∧
    (∀ v ∈ infoTrig.screen_list, ∀ t ∈ v.ticket_list, 0 ≤ t.price) ∧
    ((get_available_sessions (envOk infoTrig) 500).1 = .ok [sessionW]) ∧
    (sessionW ∈ [sessionW]) ∧
    (ticketW ∈ sessionW.ticket_list) ∧
    0 ≤ ticketW.price :=
  ⟨rfl, by decide, rfl, by simp, by simp [sessionW],
    C8_price_nonneg_of_upstream (envOk infoTrig) 500 infoTrig [sessionW]
      sessionW ticketW rfl (by decide) rfl (by simp) (by simp [sessionW])⟩

/-- C9: the three OrderTicket operations leave the order ticket exactly
as it was, every field included; in particular the credential is only
read, never changed. -/
theorem C9_operations_preserve_state (ot : OrderTicket) (env : Env) :
    (ot.get_token env).post = ot ∧
    (ot._get_create_order_payload env).post = ot ∧
    (ot.create_order env).post = ot ∧
    (ot.create_order env).post.credential = ot.credential ∧
    (ot.create_order env).post.target_buyer = ot.target_buyer ∧
    (ot.create_order env).post.project_id = ot.project_id ∧
    (ot.create_order env).post.session = ot.session ∧
    (ot.create_order env).post.ticket = ot.ticket :=
  ⟨gtokPost ot env, payloadPost ot env, orderPost ot env,
    by rw [orderPost], by rw [orderPost], by rw [orderPost],
    by rw [orderPost], by rw [orderPost]⟩

/-- C10: when no element of performance_desc.list has module base_info,
_get_create_order_payload fails with the type error (the Python loop
leaves the whole list bound and indexing it with the string key details
raises TypeError) and produces neither payload shape. -/
theorem C10_missing_base_info_fails (ot : OrderTicket) (env : Env)
    (tok : TokenResponse) (info : ProjectInfo) (s : String)
    (hc : ot.credential.sessdata = some s)
    (htok : env.token = .ok tok)
    (hinfo : env.projectInfo ot.project_id = .ok info)
    (hnb : info.performance_desc.list.find?
      (fun el => el.module == "base_info") = none) :
    (ot._get_create_order_payload env).result = .error .typeError := by
  have hres : (ot.get_token env).result = .ok tok := by
    rw [gtokOk ot env s hc]; exact htok
  unfold OrderTicket._get_create_order_payload
  simp only [hres, get_project_info, gtokPost, hinfo, hnb]

/-- C10 witness: the concrete catalog whose performance description has
no base_info element makes the payload builder fail. -/
theorem C10_missing_base_info_fails_witness :
    (otW.credential.sessdata = some "sessdata-value") ∧
    ((envOk infoNoBase).token = .ok ⟨"tok123"⟩) ∧
    ((envOk infoNoBase).projectInfo otW.project_id = .ok infoNoBase) ∧
    (infoNoBase.performance_desc.list.find?
      (fun el => el.module == "base_info") = none) ∧
    (otW._get_create_order_payload (envOk infoNoBase)).result =
      .error .typeError :=
  ⟨rfl, rfl, rfl, rfl,
    C10_missing_base_info_fails otW (envOk infoNoBase) ⟨"tok123"⟩
      infoNoBase "sessdata-value" rfl rfl rfl rfl⟩

end BiliShow
